import Mathlib

/-!
Verification development for the pangeo ocean-examples repository: two
exploratory notebooks (sea-surface altimetry, ECCO v4) that orchestrate an
external lazy-array engine, a distributed cluster provisioner and a
grid-aware differencing library.  The notebooks themselves are sequences of
library calls; we embed each code cell as a list of actions, and model the
external engines (lazy evaluation, autoscaling pool, grid differencing)
from the specification contracts, since their code is not part of this
repository.
-/

namespace Pangeo

/-- One notebook-level action: each corresponds to a statement in a code
cell, classified by what it asks of the external libraries.  `build`
constructs a lazy expression (selection, arithmetic, reduction, grouping);
`loadExpr` is an explicit materialization request; `plotExpr` renders an
expression, which forces materialization when the expression is not yet
materialized; `resolveCat` resolves a named dataset from the catalog
(metadata only); `adapt` sets the cluster worker bounds. -/
inductive Action where
  | importLib (lib : String)
  | resolveCat (catName : String)
  | inspect (what : String)
  | config (what : String)
  | build (descr : String)
  | loadExpr (descr : String)
  | plotExpr (descr : String)
  | mkCluster
  | mkClient
  | adapt (lowBound highBound : Nat)
deriving DecidableEq

/-- A cell statement: either a plain action, or a try/except construct
wrapping a body and a handler.  The notebooks never use the second form;
it is present so that absence of exception handling is a checkable fact,
not a vacuity of the embedding. -/
inductive Step where
  | act (a : Action)
  | guarded (body : List Action) (handler : List Action)
deriving DecidableEq

/-- State of the external execution engine as seen from the notebook:
how many chunks of remote bulk data have been transferred, how many tasks
have been executed, which expressions are materialized, and the current
worker count. -/
structure EngineState where
  transferredChunks : Nat
  tasksExecuted : Nat
  materialized : List String
  workers : Nat
deriving DecidableEq

/-- The engine state before any cell has run. -/
def EngineState.init : EngineState :=
  { transferredChunks := 0, tasksExecuted := 0, materialized := [], workers := 0 }

/-- Effect of a single action on the engine state, modelled from the spec:
expression construction is deferred (no transfer, no execution); an explicit
load materializes; rendering an unmaterialized expression forces
materialization; adapting clamps the worker count into the new bounds. -/
def applyA (a : Action) (s : EngineState) : EngineState :=
  match a with
  | .loadExpr d =>
      { s with transferredChunks := s.transferredChunks + 1,
               tasksExecuted := s.tasksExecuted + 1,
               materialized := d :: s.materialized }
  | .plotExpr d =>
      if d ∈ s.materialized then s
      else
        { s with transferredChunks := s.transferredChunks + 1,
                 tasksExecuted := s.tasksExecuted + 1,
                 materialized := d :: s.materialized }
  | .adapt lo hi => { s with workers := min hi (max lo s.workers) }
  | _ => s

/-- The code cells of the sea-surface altimetry notebook, in order. -/
def altimetryCells : List (List Step) :=
  [ [.act (.importLib "numpy"), .act (.importLib "xarray"),
     .act (.importLib "matplotlib"), .act (.importLib "gcsfs"),
     .act (.config "figsize")],
    [.act (.importLib "intake"), .act (.resolveCat "sea_surface_height"),
     .act (.inspect "ds")],
    [.act (.inspect "data_vars long_name")],
    [.act (.config "figsize"), .act (.build "sla_sel_nearest_2000"),
     .act (.plotExpr "sla_sel_nearest_2000")],
    [.act (.importLib "holoviews"), .act (.importLib "datashader_regrid"),
     .act (.config "bokeh extension")],
    [.act (.build "hv_dataset_sla"), .act (.build "hv_im"),
     .act (.config "holomap scrubber"), .act (.plotExpr "hv_im_regrid")],
    [.act (.importLib "dask_distributed"), .act (.importLib "dask_kubernetes"),
     .act .mkCluster, .act (.adapt 1 20), .act (.inspect "cluster")],
    [.act .mkClient, .act (.inspect "client")],
    [.act (.inspect "sla nbytes")],
    [.act (.build "sla_timeseries"), .act (.loadExpr "sla_timeseries")],
    [.act (.plotExpr "sla_timeseries"), .act (.build "sla_rolling_mean"),
     .act (.plotExpr "sla_rolling_mean"), .act (.config "labels legend grid")],
    [.act (.build "sla_hov"), .act (.loadExpr "sla_hov")],
    [.act (.config "sla_hov name"), .act (.plotExpr "sla_hov")],
    [.act (.build "sla_std"), .act (.loadExpr "sla_std"),
     .act (.config "sla_std name")],
    [.act (.plotExpr "sla_std"), .act (.config "title")],
    [] ]

/-- The code cells of the ECCO v4 notebook, in order. -/
def eccoCells : List (List Step) :=
  [ [.act (.importLib "xarray"), .act (.importLib "numpy"),
     .act (.importLib "matplotlib")],
    [.act (.importLib "intake"), .act (.resolveCat "ECCOv4r3"),
     .act (.inspect "ds")],
    [.act (.build "coords_dataset"), .act (.build "ds_reset_coords_drop")],
    [.act (.plotExpr "Depth_facets")],
    [.act (.importLib "llcmapping"), .act (.build "mapper"),
     .act (.plotExpr "Depth_map")],
    [.act (.build "sst"), .act (.inspect "sst")],
    [.act (.plotExpr "sst_map")],
    [.act (.build "mean_sst"), .act (.inspect "mean_sst")],
    [.act (.loadExpr "mean_sst")],
    [.act (.plotExpr "mean_sst_map")],
    [.act (.importLib "dask_kubernetes"), .act (.importLib "dask_distributed"),
     .act .mkCluster, .act (.adapt 1 10), .act (.inspect "cluster")],
    [.act (.build "theta_k0_time_mean"), .act (.loadExpr "theta_k0_time_mean")],
    [.act (.build "theta_clim"), .act (.build "theta_anom"),
     .act (.build "ohc"), .act (.inspect "ohc")],
    [.act (.loadExpr "ohc"), .act (.build "ohc_with_Z"),
     .act (.plotExpr "ohc_hovmoller")],
    [.act (.importLib "xgcm"), .act (.build "face_connections"),
     .act (.build "grid"), .act (.inspect "grid")],
    [.act (.build "advx_th_vint"), .act (.build "advy_th_vint"),
     .act (.build "diff_ADV_th"), .act (.build "conv_ADV_th"),
     .act (.inspect "conv_ADV_th")],
    [.act (.build "difx_th_vint"), .act (.build "dify_th_vint"),
     .act (.build "diff_DIF_th"), .act (.build "conv_DIF_th"),
     .act (.inspect "conv_DIF_th")],
    [.act (.build "mean_adv_conv_expr"), .act (.loadExpr "mean_adv_conv"),
     .act (.build "mean_dif_conv_expr"), .act (.loadExpr "mean_dif_conv")],
    [.act (.plotExpr "mean_adv_conv_map"), .act (.config "title adv")],
    [.act (.plotExpr "mean_dif_conv_map"), .act (.config "title dif")],
    [.act (.build "net_conv"), .act (.plotExpr "net_conv_map"),
     .act (.config "title net")],
    [.act (.build "tflux_time_mean"), .act (.loadExpr "tflux_time_mean"),
     .act (.plotExpr "tflux_map"), .act (.config "title tflux")],
    [] ]

/-- All code cells of both notebooks. -/
def allCells : List (List Step) := altimetryCells ++ eccoCells

/-- The plain actions occurring in a list of steps (bodies and handlers of
guarded steps included). -/
def stepActions : Step → List Action
  | .act a => [a]
  | .guarded b h => b ++ h

/-- All actions of a cell. -/
def cellActions : List Step → List Action
  | [] => []
  | st :: rest => stepActions st ++ cellActions rest

/-- All actions issued by the two notebooks. -/
def allActions : List Action := allCells.flatMap cellActions

/-- Whether an action is a lazy-expression construction. -/
def Action.isBuild : Action → Bool
  | .build _ => true
  | _ => false

/-- Whether an action is an explicit materialization request. -/
def Action.isLoad : Action → Bool
  | .loadExpr _ => true
  | _ => false

/-- Whether an action renders a plot. -/
def Action.isPlot : Action → Bool
  | .plotExpr _ => true
  | _ => false

/-- Number of explicit materialization requests a cell issues. -/
def loadCount (c : List Step) : Nat := (cellActions c).countP Action.isLoad

/-- Whether a statement is a try/except construct. -/
def stepHasGuard : Step → Bool
  | .act _ => false
  | .guarded _ _ => true

/-- Whether a cell contains an exception handler. -/
def containsGuard (c : List Step) : Bool := c.any stepHasGuard

/-- The first action of a list that the failure oracle makes fail. -/
def firstFail (fails : Action → Bool) : List Action → Option Action
  | [] => none
  | a :: rest => if fails a then some a else firstFail fails rest

/-- Run a list of plain actions under a failure oracle; the first failing
action aborts the run with that error. -/
def runActs (fails : Action → Bool) : List Action → EngineState → Except Action EngineState
  | [], s => .ok s
  | a :: rest, s => if fails a then .error a else runActs fails rest (applyA a s)

/-- Sequential semantics of a cell under a failure oracle.  A plain action
that fails aborts the cell with its error; a guarded (try/except) step
recovers from a failure of its body by running the handler instead, so only
a guard could ever keep an error from propagating. -/
def runSteps (fails : Action → Bool) : List Step → EngineState → Except Action EngineState
  | [], s => .ok s
  | .act a :: rest, s =>
      if fails a then .error a else runSteps fails rest (applyA a s)
  | .guarded b h :: rest, s =>
      match runActs fails b s with
      | .ok s2 => runSteps fails rest s2
      | .error _ =>
          match runActs fails h s with
          | .ok s3 => runSteps fails rest s3
          | .error a2 => .error a2

/-- The (minimum, maximum) pairs of the adapt calls a cell issues. -/
def adaptCalls (c : List Step) : List (Nat × Nat) :=
  (cellActions c).filterMap fun a =>
    match a with
    | .adapt lo hi => some (lo, hi)
    | _ => none

/-- All adapt calls issued by the two notebooks, in order. -/
def allAdaptCalls : List (Nat × Nat) :=
  allCells.foldr (fun c acc => adaptCalls c ++ acc) []

/-- The elastic worker pool of the cluster provisioner, modelled from the
spec: a current size plus the configured lower and upper bounds. -/
structure WorkerPool where
  size : Nat
  lowBound : Nat
  highBound : Nat
deriving DecidableEq

/-- Effect of cluster.adapt: install the new bounds and clamp the current
size into them. -/
def adaptPool (m M : Nat) (p : WorkerPool) : WorkerPool :=
  { size := min M (max m p.size), lowBound := m, highBound := M }

/-- One autoscaling decision of the provisioner: it moves the pool towards
the load-determined target, clamped into the configured bounds.  Modelled
from the spec: scaling between a minimum and maximum worker count based on
load. -/
def scalePool (p : WorkerPool) (target : Nat) : WorkerPool :=
  { p with size := min p.highBound (max p.lowBound target) }

/-- Run a sequence of autoscaling decisions. -/
def runScaling (p : WorkerPool) (ts : List Nat) : WorkerPool := ts.foldl scalePool p

/-- An axis of the LLC grid. -/
inductive Axis where
  | X
  | Y
deriving DecidableEq

/-- One link of the face-connectivity topology: the neighboring panel
index, the neighbor axis the link attaches to, and the
reverse-orientation flag. -/
structure FaceLink where
  nb : Nat
  ax : Axis
  rev : Bool
deriving DecidableEq

/-- Connectivity entry for one panel: the links on the left and right of
the X axis and of the Y axis (None at an unconnected edge). -/
structure FaceEntry where
  face : Nat
  xl : Option FaceLink
  xr : Option FaceLink
  yl : Option FaceLink
  yr : Option FaceLink
deriving DecidableEq

/-- The face-connectivity topology the ECCO notebook supplies to
xgcm.Grid, transcribed entry by entry from the face_connections dict. -/
def face_connections : List FaceEntry :=
  [ ⟨0, some ⟨12, .Y, false⟩, some ⟨3, .X, false⟩, none, some ⟨1, .Y, false⟩⟩,
    ⟨1, some ⟨11, .Y, false⟩, some ⟨4, .X, false⟩, some ⟨0, .Y, false⟩, some ⟨2, .Y, false⟩⟩,
    ⟨2, some ⟨10, .Y, false⟩, some ⟨5, .X, false⟩, some ⟨1, .Y, false⟩, some ⟨6, .X, false⟩⟩,
    ⟨3, some ⟨0, .X, false⟩, some ⟨9, .Y, false⟩, none, some ⟨4, .Y, false⟩⟩,
    ⟨4, some ⟨1, .X, false⟩, some ⟨8, .Y, false⟩, some ⟨3, .Y, false⟩, some ⟨5, .Y, false⟩⟩,
    ⟨5, some ⟨2, .X, false⟩, some ⟨7, .Y, false⟩, some ⟨4, .Y, false⟩, some ⟨6, .Y, false⟩⟩,
    ⟨6, some ⟨2, .Y, false⟩, some ⟨7, .X, false⟩, some ⟨5, .Y, false⟩, some ⟨10, .X, false⟩⟩,
    ⟨7, some ⟨6, .X, false⟩, some ⟨8, .X, false⟩, some ⟨5, .X, false⟩, some ⟨10, .Y, false⟩⟩,
    ⟨8, some ⟨7, .X, false⟩, some ⟨9, .X, false⟩, some ⟨4, .X, false⟩, some ⟨11, .Y, false⟩⟩,
    ⟨9, some ⟨8, .X, false⟩, none, some ⟨3, .X, false⟩, some ⟨12, .Y, false⟩⟩,
    ⟨10, some ⟨6, .Y, false⟩, some ⟨11, .X, false⟩, some ⟨7, .Y, false⟩, some ⟨2, .X, false⟩⟩,
    ⟨11, some ⟨10, .X, false⟩, some ⟨12, .X, false⟩, some ⟨8, .Y, false⟩, some ⟨1, .X, false⟩⟩,
    ⟨12, some ⟨11, .X, false⟩, none, some ⟨9, .Y, false⟩, some ⟨0, .X, false⟩⟩ ]

/-- Find the connectivity entry of a panel. -/
def lookupFace (f : Nat) : Option FaceEntry :=
  face_connections.find? fun e => e.face == f

/-- The link of an entry on the given axis and side (true = left). -/
def sideLink (e : FaceEntry) (ax : Axis) (isLeft : Bool) : Option FaceLink :=
  match ax, isLeft with
  | .X, true => e.xl
  | .X, false => e.xr
  | .Y, true => e.yl
  | .Y, false => e.yr

/-- The four links of an entry. -/
def entryLinks (e : FaceEntry) : List (Option FaceLink) := [e.xl, e.xr, e.yl, e.yr]

/-- Reciprocity at one position: if panel f links across (ax, side) to
panel b along axis bx, then panel b links back across (bx, opposite side)
to panel f along axis ax, with orientation not reversed. -/
def reciprocalAt (f : Nat) (ax : Axis) (isLeft : Bool) : Bool :=
  match (lookupFace f).bind fun e => sideLink e ax isLeft with
  | none => true
  | some c =>
      match lookupFace c.nb with
      | none => false
      | some e2 => decide (sideLink e2 c.ax (!isLeft) = some ⟨f, ax, false⟩)

/-- Every link of the topology is reciprocal. -/
def reciprocalOK : Bool :=
  (List.range 13).all fun f =>
    [(Axis.X, true), (Axis.X, false), (Axis.Y, true), (Axis.Y, false)].all
      fun p => reciprocalAt f p.1 p.2

/-- Contents of a dataset handle: the variable-name mapping and the
(non-index) coordinate-name mapping. -/
structure DSVal where
  data_vars : List String
  coords : List String
deriving DecidableEq

/-- The dataset operations the notebooks apply to a handle: catalog
resolution, variable selection, coordinate reset, reduction, and
arithmetic (subtraction of another field). -/
inductive DsOp where
  | resolveOp (c : DSVal)
  | selOp (v : String)
  | reset_coords (drop : Bool)
  | meanOp (rs : List String)
  | subOp (other : String)
deriving DecidableEq

/-- Value-level effect of a non-resolve operation: selection restricts the
variable mapping to the selected variable, reset_coords moves the
coordinates into the variables (or drops them), a reduction drops the
coordinates of the reduced dimensions, arithmetic keeps the mappings. -/
def applyOp : DsOp → DSVal → DSVal
  | .resolveOp c, _ => c
  | .selOp v, d => { data_vars := [v], coords := d.coords }
  | .reset_coords true, d => { data_vars := d.data_vars, coords := [] }
  | .reset_coords false, d => { data_vars := d.data_vars ++ d.coords, coords := [] }
  | .meanOp rs, d => { data_vars := d.data_vars,
                       coords := d.coords.filter fun c => !rs.contains c }
  | .subOp _, d => d

/-- Handle store semantics: handles are indices into the store of resolved
and derived dataset values.  A resolve appends the catalog value; any other
operation on a valid handle appends its derived value and returns a fresh
handle; no operation ever overwrites an existing entry. -/
def runOp (st : List DSVal) (h : Nat) (op : DsOp) : List DSVal × Nat :=
  match op with
  | .resolveOp c => (st ++ [c], st.length)
  | _ =>
      match st[h]? with
      | some d => (st ++ [applyOp op d], st.length)
      | none => (st, h)

/-- The ECCO dataset handle as resolved from the catalog, with the
variables and coordinates the notebook uses. -/
def eccoDS : DSVal :=
  { data_vars := ["THETA", "SALT", "ADVx_TH", "ADVy_TH", "DFxE_TH", "DFyE_TH", "TFLUX"],
    coords := ["Depth", "rA", "hFacC", "Z"] }

/-- A lazy array expression as built by the notebooks: a source variable
with its dimension names, a point selection (which drops the selected
dimension), or a mean over a set of dimensions. -/
inductive LExpr where
  | source (v : String) (srcDims : List String)
  | selPoint (e : LExpr) (d : String)
  | meanOver (e : LExpr) (rs : List String)
deriving DecidableEq

/-- The dimension names indexing an expression, in order. -/
def LExpr.dims : LExpr → List String
  | .source _ ds => ds
  | .selPoint e d => e.dims.filter fun x => decide (x ≠ d)
  | .meanOver e rs => e.dims.filter fun x => decide (x ∉ rs)

/-- The sla variable of the altimetry dataset, indexed by time, latitude
and longitude. -/
def sla : LExpr := .source "sla" ["time", "latitude", "longitude"]

/-- The global-mean sea-level expression: mean of sla over latitude and
longitude. -/
def sla_timeseries : LExpr := .meanOver sla ["latitude", "longitude"]

/-- The Hovmoeller expression: mean of sla over longitude alone. -/
def sla_hov : LExpr := .meanOver sla ["longitude"]

/-- The time indices belonging to one month group of the groupby
time.month used by the ECCO notebook. -/
def monthGroup (nT : Nat) (month : Fin nT → Fin 12) (m : Fin 12) : Finset (Fin nT) :=
  Finset.univ.filter fun i => month i = m

/-- The monthly climatology of a time series under exact (rational)
arithmetic: the mean of the values whose time index falls in month m. -/
def theta_clim (nT : Nat) (x : Fin nT → ℚ) (month : Fin nT → Fin 12) (m : Fin 12) : ℚ :=
  (∑ i ∈ monthGroup nT month m, x i) / (monthGroup nT month m).card

/-- The anomaly: the series minus the climatology of its own month. -/
def theta_anom (nT : Nat) (x : Fin nT → ℚ) (month : Fin nT → Fin 12) (i : Fin nT) : ℚ :=
  x i - theta_clim nT x month (month i)

/-- A chunked field with possibly missing entries, indexed by face, j, i;
a missing entry stands for NaN over land. -/
def OField := Nat → Nat → Nat → Option ℚ

/-- Elementwise division with missing-value semantics: the quotient is
undefined where either operand is missing or the denominator is zero. -/
def divNA (a b : Option ℚ) : Option ℚ :=
  match a, b with
  | some x, some y => if y = 0 then none else some (x / y)
  | _, _ => none

/-- fillna: replace a missing entry by the given value. -/
def fillna (v : ℚ) (a : Option ℚ) : Option ℚ := some (a.getD v)

/-- Multiplication of a possibly-missing entry by a present scalar. -/
def scalMul (c : ℚ) (a : Option ℚ) : Option ℚ := a.map fun x => c * x

/-- Reference density, as set in the ECCO notebook. -/
def rho0 : ℚ := 1029

/-- Specific heat capacity, as set in the ECCO notebook. -/
def cp : ℚ := 3994

/-- The materialized flux-convergence map of the ECCO notebook:
rho0 * cp * (conv / rA).fillna(0.), elementwise; both mean_adv_conv and
mean_dif_conv are this map applied to their convergence field. -/
def mean_conv_map (conv rA : OField) : OField := fun f j i =>
  scalMul (rho0 * cp) (fillna 0 (divNA (conv f j i) (rA f j i)))

/-- Per-face array data of one vector component: a rational value for each
face, row j and column i.  These are the denotations of the lazy arrays
the grid module builds. -/
def Arr := Nat → Nat → Nat → ℚ

/-- The boundary policy of the differencing module; the notebook passes
boundary fill, which substitutes the given value beyond unconnected
edges. -/
inductive BPolicy where
  | fill (v : ℚ)

/-- The link across the left X edge of a panel, from the topology. -/
def xLeftOf (f : Nat) : Option FaceLink :=
  (lookupFace f).bind fun e => e.xl

/-- The link across the left Y edge of a panel, from the topology. -/
def yLeftOf (f : Nat) : Option FaceLink :=
  (lookupFace f).bind fun e => e.yl

/-- The value just left of column 0 of panel f for the X component: taken
from the neighboring panel named by the topology — from its X component
when the axes agree, from its Y component when the link rotates the axes —
or from the boundary policy at an unconnected edge. -/
def xHalo (n : Nat) (p : BPolicy) (u v : Arr) (f j : Nat) : ℚ :=
  match xLeftOf f with
  | none => match p with | .fill w => w
  | some c =>
      match c.ax with
      | .X => u c.nb j (n - 1)
      | .Y => v c.nb (n - 1) j

/-- The value just below row 0 of panel f for the Y component, per the
topology or the boundary policy. -/
def yHalo (n : Nat) (p : BPolicy) (u v : Arr) (f i : Nat) : ℚ :=
  match yLeftOf f with
  | none => match p with | .fill w => w
  | some c =>
      match c.ax with
      | .Y => v c.nb (n - 1) i
      | .X => u c.nb i (n - 1)

/-- Backward difference of the X component along i, using the halo value
across the face boundary at column 0. -/
def diffX (n : Nat) (p : BPolicy) (u v : Arr) : Arr := fun f j i =>
  if i = 0 then u f j 0 - xHalo n p u v f j
  else u f j i - u f j (i - 1)

/-- Backward difference of the Y component along j, using the halo value
across the face boundary at row 0. -/
def diffY (n : Nat) (p : BPolicy) (u v : Arr) : Arr := fun f j i =>
  if j = 0 then v f 0 i - yHalo n p u v f i
  else v f j i - v f (j - 1) i

/-- The component of a vector field (a mapping from component name to
per-face array), zero if the name is absent. -/
def lookupComp (vf : List (String × Arr)) (k : String) : Arr :=
  match vf.find? fun q => q.1 == k with
  | some q => q.2
  | none => fun _ _ _ => 0

/-- grid.diff_2d_vector, modelled from the spec: the vector field of
backward differences of the X and Y components, with halo values across
panel boundaries resolved through the face-connectivity topology and the
boundary policy. -/
def diff_2d_vector (n : Nat) (p : BPolicy) (vf : List (String × Arr)) :
    List (String × Arr) :=
  [("X", diffX n p (lookupComp vf "X") (lookupComp vf "Y")),
   ("Y", diffY n p (lookupComp vf "X") (lookupComp vf "Y"))]

/-- In a guard-free cell the first failing action determines the whole cell
result: the run aborts with exactly that error. -/
theorem runSteps_guardFree_error (fails : Action → Bool) :
    ∀ (c : List Step) (s : EngineState) (a : Action),
      containsGuard c = false →
      firstFail fails (cellActions c) = some a →
      runSteps fails c s = Except.error a := by
  intro c
  induction c with
  | nil =>
      intro s a _ h2
      simp [cellActions, firstFail] at h2
  | cons st rest ih =>
      intro s a h1 h2
      cases st with
      | act b =>
          have hrest : containsGuard rest = false := by
            simpa [containsGuard, stepHasGuard] using h1
          have h2a :
              (if fails b then some b else firstFail fails (cellActions rest)) = some a := by
            simpa [cellActions, stepActions, firstFail] using h2
          by_cases hb : fails b = true
          · have hba : b = a := by simpa [hb] using h2a
            subst hba
            simp [runSteps, hb]
          · have h2b : firstFail fails (cellActions rest) = some a := by
              simpa [hb] using h2a
            have := ih (applyA b s) a hrest h2b
            simpa [runSteps, hb] using this
      | guarded bdy hnd =>
          exfalso
          simp [containsGuard, stepHasGuard] at h1

/-- C1: building a lazy expression (selection, arithmetic, reduction,
grouping) in either notebook transfers no remote data, executes no tasks
and materializes nothing; the engine state gains transferred data or a
materialized result only at an explicit load request or at a plot
rendering.  The engine is modelled from the spec; the traces are the
notebook cells. -/
theorem C1_lazy_until_compute :
    (∀ a ∈ allActions, a.isBuild = true → ∀ s : EngineState,
        (applyA a s).transferredChunks = s.transferredChunks ∧
        (applyA a s).tasksExecuted = s.tasksExecuted ∧
        (applyA a s).materialized = s.materialized) ∧
    (∀ (a : Action) (s : EngineState),
        ¬ ((applyA a s).transferredChunks = s.transferredChunks ∧
           (applyA a s).materialized = s.materialized) →
        a.isLoad = true ∨ a.isPlot = true) := by
  constructor
  · intro a _ hb s
    cases a <;> simp_all [Action.isBuild, applyA]
  · intro a s h
    cases a with
    | loadExpr d => exact Or.inl rfl
    | plotExpr d => exact Or.inr rfl
    | _ => exact absurd ⟨rfl, rfl⟩ h

/-- Witness for C1 at concrete inputs: building the time-mean SST
expression changes nothing in the initial engine state, and the action
that does materialize is a load. -/
theorem C1_lazy_until_compute_witness :
    ((applyA (Action.build "mean_sst") EngineState.init).transferredChunks = 0 ∧
     (applyA (Action.build "mean_sst") EngineState.init).materialized = []) ∧
    ((Action.loadExpr "mean_sst").isLoad = true ∨
     (Action.loadExpr "mean_sst").isPlot = true) := by
  refine ⟨⟨?_, ?_⟩, ?_⟩
  · exact (C1_lazy_until_compute.1 (Action.build "mean_sst") (by decide) rfl
      EngineState.init).1.trans rfl
  · exact (C1_lazy_until_compute.1 (Action.build "mean_sst") (by decide) rfl
      EngineState.init).2.2.trans rfl
  · exact C1_lazy_until_compute.2 (Action.loadExpr "mean_sst") EngineState.init
      (by intro h; exact absurd h.1 (by decide))

/-- C2 counterexample: the claim that every notebook cell issues at most
one materialization request is false.  The flux-convergence cell of the
ECCO notebook (index 17) loads both mean_adv_conv and mean_dif_conv, two
explicit load requests in one cell. -/
theorem C2_counterexample :
    loadCount (eccoCells.getD 17 []) = 2 ∧
    (allCells.all fun c => loadCount c ≤ 1) = false := by
  decide

/-- C2 amended: every notebook cell issues at most two materialization
requests; exactly one cell (the ECCO flux-convergence cell) issues two,
every other cell at most one; and each load request is synchronous: the
loaded expression is materialized in the state the request returns, before
the next action of the cell runs. -/
theorem C2_amended_load_discipline :
    (allCells.all fun c => loadCount c ≤ 2) = true ∧
    (allCells.countP fun c => 2 ≤ loadCount c) = 1 ∧
    ∀ (d : String) (s : EngineState),
      (applyA (Action.loadExpr d) s).materialized = d :: s.materialized := by
  refine ⟨by decide, by decide, fun d s => rfl⟩

/-- C7: no cell of either notebook contains an exception handler, and under
the sequential cell semantics a failing library call in a guard-free cell
makes the whole cell evaluate to exactly that first error — it propagates
unchanged to the interactive user and no alternative result is produced. -/
theorem C7_no_handlers_errors_propagate :
    (allCells.all fun c => !containsGuard c) = true ∧
    (∀ (fails : Action → Bool) (c : List Step) (s : EngineState) (a : Action),
       containsGuard c = false →
       firstFail fails (cellActions c) = some a →
       runSteps fails c s = Except.error a) := by
  exact ⟨by decide, fun fails c s a h1 h2 => runSteps_guardFree_error fails c s a h1 h2⟩

/-- Witness for C7 at a concrete input: making every load request fail in
the ECCO flux-convergence cell aborts the cell with the first load error. -/
theorem C7_no_handlers_errors_propagate_witness :
    runSteps Action.isLoad (eccoCells.getD 17 []) EngineState.init =
      Except.error (Action.loadExpr "mean_adv_conv") := by
  exact C7_no_handlers_errors_propagate.2 Action.isLoad (eccoCells.getD 17 [])
    EngineState.init (Action.loadExpr "mean_adv_conv") (by decide) (by decide)

/-- Invariant of the autoscaler: once the bounds are m ≤ M and the size is
within them, every scaling decision keeps the size within them. -/
theorem runScaling_bounds (m M : Nat) (hmM : m ≤ M) :
    ∀ (ts : List Nat) (p : WorkerPool),
      p.lowBound = m → p.highBound = M → m ≤ p.size → p.size ≤ M →
      m ≤ (runScaling p ts).size ∧ (runScaling p ts).size ≤ M := by
  intro ts
  induction ts with
  | nil => intro p _ _ h3 h4; exact ⟨h3, h4⟩
  | cons t rest ih =>
      intro p h1 h2 h3 h4
      have hstep : runScaling p (t :: rest) = runScaling (scalePool p t) rest := rfl
      rw [hstep]
      refine ih (scalePool p t) ?_ ?_ ?_ ?_
      · simp only [scalePool, h1]
      · simp only [scalePool, h2]
      · simp only [scalePool, h1, h2]; omega
      · simp only [scalePool, h1, h2]; omega

/-- C4: the notebooks issue exactly the adapt calls (1, 20) and (1, 10),
each satisfying 1 ≤ minimum ≤ maximum, and in the modelled provisioner any
sequence of load-driven scaling decisions after adapt(m, M) with m ≤ M
keeps the worker pool size between m and M inclusive. -/
theorem C4_adapt_bounds :
    allAdaptCalls = [(1, 20), (1, 10)] ∧
    (allAdaptCalls.all fun b => 1 ≤ b.1 && b.1 ≤ b.2) = true ∧
    (∀ (m M : Nat) (p : WorkerPool) (ts : List Nat), m ≤ M →
        m ≤ (runScaling (adaptPool m M p) ts).size ∧
        (runScaling (adaptPool m M p) ts).size ≤ M) := by
  refine ⟨by decide, by decide, ?_⟩
  intro m M p ts hmM
  refine runScaling_bounds m M hmM ts (adaptPool m M p) rfl rfl ?_ ?_
  · simp only [adaptPool]; omega
  · simp only [adaptPool]; omega

/-- Witness for C4 at concrete inputs: after adapt(1, 20) on an empty pool,
the scaling decisions for targets 0 and 50 leave the size within
the bounds. -/
theorem C4_adapt_bounds_witness :
    1 ≤ (runScaling (adaptPool 1 20 ⟨0, 0, 0⟩) [0, 50]).size ∧
    (runScaling (adaptPool 1 20 ⟨0, 0, 0⟩) [0, 50]).size ≤ 20 :=
  C4_adapt_bounds.2.2 1 20 ⟨0, 0, 0⟩ [0, 50] (by decide)

/-- C8: the face-connectivity topology of the ECCO notebook is well formed:
its panel indices are exactly 0 through 12, every link names a panel in
that range, every reverse-orientation flag is False, and every link is
reciprocal (the neighbor lists the panel back across the corresponding
axis on the opposite side). -/
theorem C8_face_connections_wellformed :
    face_connections.map FaceEntry.face =
      [0, 1, 2, 3, 4, 5, 6, 7, 8, 9, 10, 11, 12] ∧
    (face_connections.all fun e =>
        (entryLinks e).all fun l =>
          match l with
          | none => true
          | some c => decide (c.nb < 13) && !c.rev) = true ∧
    reciprocalOK = true := by
  decide

/-- C5 counterexample: re-resolving from the catalog is not the only way to
obtain a different handle.  Applying reset_coords(drop=True) — the
operation of the coordinate-reset cell of the ECCO notebook — to the
resolved handle yields a new handle, with a coordinate mapping that
differs from the resolved one, without any catalog resolution. -/
theorem C5_counterexample :
    (runOp [eccoDS] 0 (DsOp.reset_coords true)).2 ≠ 0 ∧
    ((runOp [eccoDS] 0 (DsOp.reset_coords true)).1)[(runOp [eccoDS] 0 (DsOp.reset_coords true)).2]? ≠ some eccoDS := by
  decide

/-- C5 amended: a dataset handle, once resolved, is never mutated: every
selection, coordinate-reset, reduction or arithmetic step leaves every
existing store entry (in particular the resolved handle's variable and
coordinate mappings) unchanged, and an operation acting on a valid handle
returns a fresh handle rather than updating the old one.  Operations such
as reset_coords may therefore yield different handles without
re-resolving; only the contents of an existing handle are stable. -/
theorem C5_amended_handle_immutable :
    (∀ (st : List DSVal) (h : Nat) (op : DsOp) (i : Nat), i < st.length →
        ((runOp st h op).1)[i]? = st[i]?) ∧
    (∀ (st : List DSVal) (h : Nat) (op : DsOp), st[h]?.isSome = true →
        (runOp st h op).1.length = st.length + 1 ∧ (runOp st h op).2 = st.length) := by
  constructor
  · intro st h op i hi
    have happ : ∀ x : DSVal, (st ++ [x])[i]? = st[i]? := fun x =>
      List.getElem?_append_left hi
    cases op with
    | resolveOp c => exact happ c
    | selOp v =>
        cases hd : st[h]? with
        | some d => simp only [runOp, hd]; exact happ _
        | none => simp only [runOp, hd]
    | reset_coords dr =>
        cases hd : st[h]? with
        | some d => simp only [runOp, hd]; exact happ _
        | none => simp only [runOp, hd]
    | meanOp rs =>
        cases hd : st[h]? with
        | some d => simp only [runOp, hd]; exact happ _
        | none => simp only [runOp, hd]
    | subOp o =>
        cases hd : st[h]? with
        | some d => simp only [runOp, hd]; exact happ _
        | none => simp only [runOp, hd]
  · intro st h op hs
    cases hd : st[h]? with
    | none => rw [hd] at hs; simp at hs
    | some d => cases op <;> simp [runOp, hd]

/-- Witness for C5 amended at concrete inputs: after reset_coords on the
resolved ECCO handle, the entry at the resolved handle still holds the
original mappings, and the operation returned the fresh handle 1. -/
theorem C5_amended_handle_immutable_witness :
    ((runOp [eccoDS] 0 (DsOp.reset_coords true)).1)[0]? = some eccoDS ∧
    (runOp [eccoDS] 0 (DsOp.reset_coords true)).2 = 1 := by
  constructor
  · exact (C5_amended_handle_immutable.1 [eccoDS] 0 (DsOp.reset_coords true) 0
      (by decide)).trans rfl
  · exact (C5_amended_handle_immutable.2 [eccoDS] 0 (DsOp.reset_coords true)
      (by decide)).2.trans rfl

/-- C6: the reduction expressions of the altimetry notebook drop exactly
the reduced dimensions and keep the others: the mean of sla over latitude
and longitude is indexed by time only, the mean over longitude alone by
time and latitude; in general a dimension survives a mean exactly when it
was present and not reduced, and a reduction is a new expression, not the
reduced one. -/
theorem C6_reduction_dims :
    sla_timeseries.dims = ["time"] ∧
    sla_hov.dims = ["time", "latitude"] ∧
    (∀ (e : LExpr) (rs : List String) (d : String),
        d ∈ (LExpr.meanOver e rs).dims ↔ d ∈ e.dims ∧ d ∉ rs) ∧
    (∀ (e : LExpr) (rs : List String), LExpr.meanOver e rs ≠ e) := by
  refine ⟨by decide, by decide, ?_, ?_⟩
  · intro e rs d
    simp [LExpr.dims, List.mem_filter]
  · intro e rs h
    have h2 : sizeOf (LExpr.meanOver e rs) = sizeOf e := congrArg sizeOf h
    simp only [LExpr.meanOver.sizeOf_spec] at h2
    omega

/-- Witness for C6 at concrete inputs: time survives the mean over
latitude and longitude, and the Hovmoeller mean is a new expression. -/
theorem C6_reduction_dims_witness :
    ("time" ∈ (LExpr.meanOver sla ["latitude", "longitude"]).dims ↔
        "time" ∈ sla.dims ∧ "time" ∉ ["latitude", "longitude"]) ∧
    LExpr.meanOver sla ["longitude"] ≠ sla :=
  ⟨C6_reduction_dims.2.2.1 sla ["latitude", "longitude"] "time",
   C6_reduction_dims.2.2.2 sla ["longitude"]⟩

/-- The anomaly of a nonempty month group sums to zero under exact
arithmetic. -/
theorem sum_anom_eq_zero (nT : Nat) (x : Fin nT → ℚ) (month : Fin nT → Fin 12)
    (m : Fin 12) (h : 0 < (monthGroup nT month m).card) :
    (∑ i ∈ monthGroup nT month m, theta_anom nT x month i) = 0 := by
  have hcongr : ∀ i ∈ monthGroup nT month m,
      theta_anom nT x month i = x i - theta_clim nT x month m := by
    intro i hi
    have hm : month i = m := by
      simpa [monthGroup, Finset.mem_filter] using hi
    rw [theta_anom, hm]
  rw [Finset.sum_congr rfl hcongr, Finset.sum_sub_distrib, Finset.sum_const,
    nsmul_eq_mul, theta_clim]
  have hc : ((monthGroup nT month m).card : ℚ) ≠ 0 := by
    exact_mod_cast Nat.pos_iff_ne_zero.mp h
  field_simp

/-- The climatology of the anomaly vanishes on every nonempty month
group. -/
theorem clim_anom_eq_zero (nT : Nat) (x : Fin nT → ℚ) (month : Fin nT → Fin 12)
    (m : Fin 12) (h : 0 < (monthGroup nT month m).card) :
    theta_clim nT (theta_anom nT x month) month m = 0 := by
  rw [theta_clim, sum_anom_eq_zero nT x month m h, zero_div]

/-- C9: under exact arithmetic the anomaly field THETA minus its monthly
climatology has zero mean within every nonempty month group, and removing
the monthly climatology is idempotent: the anomaly of the anomaly is the
anomaly itself. -/
theorem C9_anomaly_zero_mean (nT : Nat) (x : Fin nT → ℚ)
    (month : Fin nT → Fin 12) :
    (∀ m : Fin 12, 0 < (monthGroup nT month m).card →
        (∑ i ∈ monthGroup nT month m, theta_anom nT x month i) = 0 ∧
        theta_clim nT (theta_anom nT x month) month m = 0) ∧
    (∀ i : Fin nT,
        theta_anom nT (theta_anom nT x month) month i = theta_anom nT x month i) := by
  constructor
  · intro m hm
    exact ⟨sum_anom_eq_zero nT x month m hm, clim_anom_eq_zero nT x month m hm⟩
  · intro i
    have hi : i ∈ monthGroup nT month (month i) := by
      simp [monthGroup, Finset.mem_filter]
    have hpos : 0 < (monthGroup nT month (month i)).card :=
      Finset.card_pos.mpr ⟨i, hi⟩
    calc theta_anom nT (theta_anom nT x month) month i
        = theta_anom nT x month i -
            theta_clim nT (theta_anom nT x month) month (month i) := rfl
      _ = theta_anom nT x month i := by
          rw [clim_anom_eq_zero nT x month (month i) hpos, sub_zero]

/-- Witness for C9 at a concrete input: two January samples with values 1
and 5; their anomaly sums to zero over the January group. -/
theorem C9_anomaly_zero_mean_witness :
    (∑ i ∈ monthGroup 2 (fun _ => (0 : Fin 12)) 0,
        theta_anom 2 (fun i => if i = 0 then (1 : ℚ) else 5) (fun _ => 0) i) = 0 :=
  ((C9_anomaly_zero_mean 2 (fun i => if i = 0 then (1 : ℚ) else 5)
      (fun _ => 0)).1 0 (by decide)).1

/-- C10: every element of the materialized flux-convergence maps is a
defined number, and wherever the division by the cell area is undefined
(area missing or zero over land) the fillna step has replaced the entry by
zero. -/
theorem C10_no_missing_values (conv rA : OField) (f j i : Nat) :
    (mean_conv_map conv rA f j i).isSome = true ∧
    ((rA f j i = none ∨ rA f j i = some 0) →
        mean_conv_map conv rA f j i = some 0) := by
  constructor
  · rfl
  · rintro (hr | hr) <;>
      cases hc : conv f j i <;>
        simp [mean_conv_map, divNA, fillna, scalMul, hr, hc]

/-- Witness for C10 at a concrete input: a present convergence value over
a land cell with zero area materializes as zero. -/
theorem C10_no_missing_values_witness :
    mean_conv_map (fun _ _ _ => some 7) (fun _ _ _ => some 0) 0 0 0 = some 0 :=
  (C10_no_missing_values (fun _ _ _ => some 7) (fun _ _ _ => some 0) 0 0 0).2
    (Or.inr rfl)

/-- C3: applied to a vector field with components on the staggered X and Y
positions, the modelled grid.diff_2d_vector returns a vector field with
exactly the components X and Y over the same faces; in the interior each
component is the backward difference of the corresponding input component,
and at a panel edge the subtracted halo value comes from the panel and
component named by the face-connectivity topology (rotating X into Y when
the link rotates the axes), or from the boundary policy at an unconnected
edge. -/
theorem C3_diff_2d_vector (n : Nat) (p : BPolicy) (u v : Arr) :
    (diff_2d_vector n p [("X", u), ("Y", v)]).map Prod.fst = ["X", "Y"] ∧
    (∀ f j i, 0 < i →
        lookupComp (diff_2d_vector n p [("X", u), ("Y", v)]) "X" f j i =
          u f j i - u f j (i - 1)) ∧
    (∀ f j i, 0 < j →
        lookupComp (diff_2d_vector n p [("X", u), ("Y", v)]) "Y" f j i =
          v f j i - v f (j - 1) i) ∧
    (∀ f c j, xLeftOf f = some c → c.ax = Axis.X →
        lookupComp (diff_2d_vector n p [("X", u), ("Y", v)]) "X" f j 0 =
          u f j 0 - u c.nb j (n - 1)) ∧
    (∀ f c j, xLeftOf f = some c → c.ax = Axis.Y →
        lookupComp (diff_2d_vector n p [("X", u), ("Y", v)]) "X" f j 0 =
          u f j 0 - v c.nb (n - 1) j) ∧
    (∀ w f j, xLeftOf f = none →
        lookupComp (diff_2d_vector n (BPolicy.fill w) [("X", u), ("Y", v)]) "X" f j 0 =
          u f j 0 - w) := by
  have hu : lookupComp [("X", u), ("Y", v)] "X" = u := rfl
  have hv : lookupComp [("X", u), ("Y", v)] "Y" = v := rfl
  have hx : ∀ q : BPolicy,
      lookupComp (diff_2d_vector n q [("X", u), ("Y", v)]) "X" = diffX n q u v := by
    intro q
    simp [diff_2d_vector, lookupComp, hu, hv]
  have hy : lookupComp (diff_2d_vector n p [("X", u), ("Y", v)]) "Y" = diffY n p u v := by
    simp [diff_2d_vector, lookupComp, hu, hv]
  refine ⟨rfl, ?_, ?_, ?_, ?_, ?_⟩
  · intro f j i hi
    have hi0 : ¬ i = 0 := Nat.pos_iff_ne_zero.mp hi
    rw [hx p]
    simp [diffX, hi0]
  · intro f j i hj
    have hj0 : ¬ j = 0 := Nat.pos_iff_ne_zero.mp hj
    rw [hy]
    simp [diffY, hj0]
  · intro f c j hf hax
    rw [hx p]
    simp [diffX, xHalo, hf, hax]
  · intro f c j hf hax
    rw [hx p]
    simp [diffX, xHalo, hf, hax]
  · intro w f j hf
    rw [hx (BPolicy.fill w)]
    simp [diffX, xHalo, hf]

/-- Witness for C3 at concrete inputs: with constant components 3 and 5 on
a 2 by 2 grid, the interior X difference at face 0 is 3 - 3, and at the
left edge of face 0 the topology links to the Y axis of face 12, so the
halo value is the Y component value 5. -/
theorem C3_diff_2d_vector_witness :
    lookupComp (diff_2d_vector 2 (BPolicy.fill 0)
        [("X", fun _ _ _ => (3 : ℚ)), ("Y", fun _ _ _ => (5 : ℚ))]) "X" 0 0 1 =
      3 - 3 ∧
    lookupComp (diff_2d_vector 2 (BPolicy.fill 0)
        [("X", fun _ _ _ => (3 : ℚ)), ("Y", fun _ _ _ => (5 : ℚ))]) "X" 0 0 0 =
      3 - 5 := by
  constructor
  · exact (C3_diff_2d_vector 2 (BPolicy.fill 0) (fun _ _ _ => (3 : ℚ))
      (fun _ _ _ => (5 : ℚ))).2.1 0 0 1 (by decide)
  · exact (C3_diff_2d_vector 2 (BPolicy.fill 0) (fun _ _ _ => (3 : ℚ))
      (fun _ _ _ => (5 : ℚ))).2.2.2.2.1 0 ⟨12, Axis.Y, false⟩ 0 (by decide) rfl

end Pangeo
